import Mathlib

/-!
Verification development for the road-network construction and topology
engine of the RustSandbox repository (city-simulation road network).

The development shallowly embeds two layers of the source:

* namespace `Scale`: the turn-policy derivation of
  `src/scale/src/map_model/turn_policy.rs` and the lane-pattern builder of
  `src/scale/src/map_model/lane.rs`.  All geometry appearing there is
  polynomial (dot products against a fixed threshold), so vectors are
  embedded with rational coordinates and every definition is executable.

* namespace `Sim`: the intersection interface-radius computation of
  `src/egregoria/src/map/objects/intersection.rs` and the road-build
  validator checks of `src/native_app/src/gui/roadbuild.rs`.  These use
  square roots and angles, so they are embedded over the real numbers.

Numeric `f32` arithmetic is idealised as exact arithmetic (`ℚ` resp. `ℝ`).
Store types (`slotmap` arenas) are embedded as functions from identifiers;
a lookup that would panic in Rust reads through a default element.
-/

namespace Scale

/-- Lane identifier (`LaneID`, a slotmap key in the source). -/
abbrev LaneID := Nat

/-- Road identifier (`RoadID`). -/
abbrev RoadID := Nat

/-- Intersection identifier (`IntersectionID`). -/
abbrev IntersectionID := Nat

/-- Two-dimensional vector with rational coordinates; embeds the `f32`
vector type used by the turn policy. -/
structure Vec2 where
  x : ℚ
  y : ℚ
deriving DecidableEq

/-- Dot product of two vectors. -/
def Vec2.dot (a b : Vec2) : ℚ := a.x * b.x + a.y * b.y

/-- Lane kinds, from `enum LaneKind` in `src/scale/src/map_model/lane.rs`. -/
inductive LaneKind where
  | Driving
  | Biking
  | Parking
  | Bus
  | Construction
  | Walking
deriving DecidableEq

/-- Source `LaneKind::vehicles`: driving, biking and bus lanes carry vehicles. -/
def LaneKind.vehicles : LaneKind → Bool
  | LaneKind.Driving => true
  | LaneKind.Biking => true
  | LaneKind.Bus => true
  | _ => false

/-- Source `LaneKind::width` from `src/scale/src/map_model/lane.rs`. -/
def LaneKind.width : LaneKind → ℚ
  | LaneKind.Driving => 8
  | LaneKind.Biking => 8
  | LaneKind.Bus => 8
  | LaneKind.Parking => 4
  | LaneKind.Construction => 4
  | LaneKind.Walking => 4

/-- A lane, restricted to the fields the turn policy reads: its identity,
its kind, and its travel direction at the intersection
(`Lane::get_orientation_vec`, whose defining module is not under `src/`;
the direction is therefore carried as a field). -/
structure Lane where
  id : LaneID
  kind : LaneKind
  orientation : Vec2
deriving DecidableEq

/-- Source `Lane::get_orientation_vec`: the lane's travel direction. -/
def Lane.get_orientation_vec (l : Lane) : Vec2 := l.orientation

/-- Lane store (`Lanes`, a slotmap); indexing `lanes[id]` is total here. -/
abbrev Lanes := LaneID → Lane

/-- Modelled from the spec: a road as seen from the turn policy (the
`Road` struct of `map_model/road.rs` is not under `src/`).  Only the two
lane-list accessors that `turn_policy.rs` calls are kept:
`Road::incoming_lanes_to(i)` lists the lanes entering intersection `i`
and `Road::outgoing_lanes_from(i)` the lanes leaving it, both in
geometric order. -/
structure Road where
  id : RoadID
  incoming_lanes_to : IntersectionID → List LaneID
  outgoing_lanes_from : IntersectionID → List LaneID

/-- Road store (`Roads`). -/
abbrev Roads := RoadID → Road

/-- Modelled from the spec: `Road::sidewalks(from, lanes)` (not under
`src/`) returns the pair (incoming sidewalk, outgoing sidewalk) at the
given intersection, that is the first `Walking` lane of each of the two
lane lists, as full lane records. -/
def Road.sidewalks (r : Road) (i : IntersectionID) (lanes : Lanes) :
    Option Lane × Option Lane :=
  ((r.incoming_lanes_to i).find? (fun l => (lanes l).kind = LaneKind.Walking)
      |>.map (fun l => lanes l),
   (r.outgoing_lanes_from i).find? (fun l => (lanes l).kind = LaneKind.Walking)
      |>.map (fun l => lanes l))

/-- Turn kinds (`TurnKind`). -/
inductive TurnKind where
  | Normal
  | WalkingCorner
  | Crosswalk
deriving DecidableEq

/-- Turn identity (`TurnID`): owning intersection plus source and
destination lanes. -/
structure TurnID where
  parent : IntersectionID
  src : LaneID
  dst : LaneID
deriving DecidableEq

/-- Source `TurnID::new`. -/
def TurnID.new (parent : IntersectionID) (src dst : LaneID) : TurnID :=
  ⟨parent, src, dst⟩

/-- Turn-policy configuration, from `struct TurnPolicy` in
`src/scale/src/map_model/turn_policy.rs`. -/
structure TurnPolicy where
  back_turns : Bool
  left_turns : Bool
deriving DecidableEq

/-- Source `TurnPolicy::default()`: no back turns, left turns allowed. -/
def TurnPolicy.default : TurnPolicy := ⟨false, true⟩

/-- An intersection as read by the turn policy and by
`Intersection::update_turns`: identity, incident roads sorted by angle,
policy, and the derived turn set (identities with kinds). -/
structure Intersection where
  id : IntersectionID
  roads : List RoadID
  turn_policy : TurnPolicy
  turns : List (TurnID × TurnKind)

/-- Source `filter_vehicles` from `turn_policy.rs`: keep the vehicle-capable
lanes of a lane list. -/
def filter_vehicles (x : List LaneID) (lanes : Lanes) : List LaneID :=
  x.filter (fun l => (lanes l).kind.vehicles)

/-- Source `TurnPolicy::zip`: pair incoming and outgoing lanes index by index. -/
def TurnPolicy.zip (inter_id : IntersectionID) (incoming outgoing : List LaneID) :
    List (TurnID × TurnKind) :=
  (incoming.zip outgoing).map
    (fun p => (TurnID.new inter_id p.1 p.2, TurnKind.Normal))

/-- Source `TurnPolicy::all`: full cross product of incoming and outgoing lanes. -/
def TurnPolicy.all (inter_id : IntersectionID) (incoming outgoing : List LaneID) :
    List (TurnID × TurnKind) :=
  incoming.flatMap
    (fun lane_src => outgoing.map
      (fun lane_dst => (TurnID.new inter_id lane_src lane_dst, TurnKind.Normal)))

/-- Source `TurnPolicy::zip_on_same_length`: zip when the two lists have the same
length, full cross product otherwise. -/
def TurnPolicy.zip_on_same_length (inter_id : IntersectionID)
    (incoming outgoing : List LaneID) : List (TurnID × TurnKind) :=
  if incoming.length = outgoing.length then
    TurnPolicy.zip inter_id incoming outgoing
  else
    TurnPolicy.all inter_id incoming outgoing

/-- Body of the general (three or more roads) loop of
`TurnPolicy::generate_vehicle_turns`, for one ordered pair of incident
roads. -/
def vehicle_loop_pair (p : TurnPolicy) (inter_id : IntersectionID)
    (lanes : Lanes) (roads : Roads) (road1 road2 : RoadID) :
    List (TurnID × TurnKind) :=
  if road1 = road2 && !p.back_turns then []
  else
    ((roads road1).incoming_lanes_to inter_id).flatMap (fun incoming =>
      ((roads road2).outgoing_lanes_from inter_id).filterMap (fun outgoing =>
        if !(lanes incoming).kind.vehicles || !(lanes outgoing).kind.vehicles then none
        else
          if p.left_turns
              || decide ((Vec2.mk (lanes incoming).get_orientation_vec.y
                    (-(lanes incoming).get_orientation_vec.x)).dot
                  (lanes outgoing).get_orientation_vec ≥ -(3/10 : ℚ))
          then some (TurnID.new inter_id (lanes incoming).id (lanes outgoing).id,
            TurnKind.Normal)
          else none))

/-- The general loop of `TurnPolicy::generate_vehicle_turns`: every
ordered pair of incident roads. -/
def vehicle_loop (p : TurnPolicy) (inter_id : IntersectionID)
    (rlist : List RoadID) (lanes : Lanes) (roads : Roads) :
    List (TurnID × TurnKind) :=
  rlist.flatMap (fun road1 =>
    rlist.flatMap (fun road2 =>
      vehicle_loop_pair p inter_id lanes roads road1 road2))

/-- Source `TurnPolicy::generate_vehicle_turns`: one incident road is zipped on
itself, two incident roads are zipped across, three or more run the
general dot-product loop. -/
def TurnPolicy.generate_vehicle_turns (p : TurnPolicy) (inter : Intersection)
    (lanes : Lanes) (roads : Roads) : List (TurnID × TurnKind) :=
  match inter.roads with
  | [road_id] =>
      TurnPolicy.zip_on_same_length inter.id
        (filter_vehicles ((roads road_id).incoming_lanes_to inter.id) lanes)
        (filter_vehicles ((roads road_id).outgoing_lanes_from inter.id) lanes)
  | [road1, road2] =>
      TurnPolicy.zip_on_same_length inter.id
        (filter_vehicles ((roads road1).incoming_lanes_to inter.id) lanes)
        (filter_vehicles ((roads road2).outgoing_lanes_from inter.id) lanes)
      ++
      TurnPolicy.zip_on_same_length inter.id
        (filter_vehicles ((roads road2).incoming_lanes_to inter.id) lanes)
        (filter_vehicles ((roads road1).outgoing_lanes_from inter.id) lanes)
  | _ => vehicle_loop p inter.id inter.roads lanes roads

/-- Consecutive pairs of a list, as produced by `windows(2)` in the
source. -/
def windows2 {α : Type} (l : List α) : List (α × α) := l.zip l.tail

/-- Source: the closure of the `filter_map` inside
`TurnPolicy::generate_walking_turns`, keeping a road exactly when it owns
both an incoming and an outgoing sidewalk at the intersection. -/
def sidewalk_pair (inter_id : IntersectionID) (lanes : Lanes) (roads : Roads)
    (x : RoadID) : Option (Lane × Lane) :=
  match (roads x).sidewalks inter_id lanes with
  | (some incoming, some outgoing) => some (incoming, outgoing)
  | _ => none

/-- Source `TurnPolicy::generate_walking_turns`: chain the first incident road
after the last, keep the roads owning both sidewalks, and for every
consecutive pair emit a walking corner (first road's incoming sidewalk to
second road's outgoing sidewalk) plus, when more than two roads meet, a
crosswalk across the first road of the pair. -/
def TurnPolicy.generate_walking_turns (_p : TurnPolicy) (inter : Intersection)
    (lanes : Lanes) (roads : Roads) : List (TurnID × TurnKind) :=
  (windows2 ((inter.roads ++ inter.roads.take 1).filterMap
      (sidewalk_pair inter.id lanes roads))).flatMap (fun w =>
    (TurnID.new inter.id w.1.1.id w.2.2.id, TurnKind.WalkingCorner) ::
      (if inter.roads.length > 2 then
        [(TurnID.new inter.id w.1.2.id w.1.1.id, TurnKind.Crosswalk)]
      else []))

/-- Source `TurnPolicy::generate_turns`: vehicle turns followed by walking
turns. -/
def TurnPolicy.generate_turns (p : TurnPolicy) (inter : Intersection)
    (lanes : Lanes) (roads : Roads) : List (TurnID × TurnKind) :=
  p.generate_vehicle_turns inter lanes roads
    ++ p.generate_walking_turns inter lanes roads

/-- Source `Intersection::update_turns` (shape taken from
`src/egregoria/src/map/objects/intersection.rs`, delegating to the in-src
turn policy): the whole turn set is regenerated from the incident roads
and lanes; the per-turn geometry pass (`Turn::make_points`) touches only
the generated path, not the identity or the kind, and the `BTreeSet`
collection is embedded as deduplication of the generated list. -/
def Intersection.update_turns (inter : Intersection) (lanes : Lanes)
    (roads : Roads) : Intersection :=
  { inter with turns := (inter.turn_policy.generate_turns inter lanes roads).dedup }

/-- Source `LanePattern` from `src/scale/src/map_model/lane.rs`. -/
structure LanePattern where
  lanes_forward : List LaneKind
  lanes_backward : List LaneKind
deriving DecidableEq

/-- Source `LanePatternBuilder` configuration. -/
structure LanePatternBuilder where
  n_lanes : Nat
  sidewalks : Bool
  parking : Bool
  one_way : Bool
deriving DecidableEq

/-- Source `LanePatternBuilder::width`: sidewalks and parking count twice, plus
`n_lanes` driving lanes per direction. -/
def LanePatternBuilder.width (b : LanePatternBuilder) : ℚ :=
  (if b.sidewalks then LaneKind.Walking.width * 2 else 0)
    + (if b.parking then LaneKind.Parking.width * 2 else 0)
    + (b.n_lanes : ℚ) * 2 * LaneKind.Driving.width

/-- Source `LanePatternBuilder::build`: driving lanes (none backward when one
way), then parking, then sidewalks are appended to both directions. -/
def LanePatternBuilder.build (b : LanePatternBuilder) : LanePattern :=
  let backward0 : List LaneKind :=
    if b.one_way then [] else List.replicate b.n_lanes LaneKind.Driving
  let forward0 : List LaneKind := List.replicate b.n_lanes LaneKind.Driving
  let backward1 := if b.parking then backward0 ++ [LaneKind.Parking] else backward0
  let forward1 := if b.parking then forward0 ++ [LaneKind.Parking] else forward0
  let backward2 := if b.sidewalks then backward1 ++ [LaneKind.Walking] else backward1
  let forward2 := if b.sidewalks then forward1 ++ [LaneKind.Walking] else forward1
  { lanes_forward := forward2, lanes_backward := backward2 }

/-- Total width of a lane-kind list. -/
def lanesWidth (l : List LaneKind) : ℚ := (l.map LaneKind.width).sum

end Scale

section ScaleExamples

open Scale

/-- A lane store where lane `l` has identity `l`; kinds: lanes 0-9 drive
east, lanes 10-19 walk, everything else drives north. -/
def exLanes : Lanes := fun l =>
  if l < 10 then ⟨l, LaneKind.Driving, ⟨1, 0⟩⟩
  else if l < 20 then ⟨l, LaneKind.Walking, ⟨1, 0⟩⟩
  else ⟨l, LaneKind.Driving, ⟨0, 1⟩⟩

/-- Dead-end road with two incoming and three outgoing driving lanes. -/
def exRoadsSingle : Roads := fun _ => ⟨0, fun _ => [0, 1], fun _ => [2, 3, 4]⟩

/-- Intersection with exactly one incident road. -/
def exInterSingle : Intersection := ⟨0, [0], TurnPolicy.default, []⟩

/-- Two roads, each with one incoming and one outgoing sidewalk: road 0
carries sidewalk lanes 10 (in) and 11 (out), road 1 carries 12 (in) and
13 (out). -/
def exRoadsTwoSw : Roads := fun r =>
  if r = 0 then ⟨0, fun _ => [10], fun _ => [11]⟩
  else ⟨1, fun _ => [12], fun _ => [13]⟩

/-- Two-road intersection for the walking-corner direction check. -/
def exInterTwoSw : Intersection := ⟨0, [0, 1], TurnPolicy.default, []⟩

/-- Three roads, each with a driving lane pair and a sidewalk pair. -/
def exRoadsThree : Roads := fun r =>
  if r = 0 then ⟨0, fun _ => [0, 10], fun _ => [1, 11]⟩
  else if r = 1 then ⟨1, fun _ => [2, 12], fun _ => [3, 13]⟩
  else ⟨2, fun _ => [20, 14], fun _ => [21, 15]⟩

/-- Three-road intersection. -/
def exInterThree : Intersection := ⟨0, [0, 1, 2], TurnPolicy.default, []⟩

/-- Incoming sidewalk lane of each of the three roads above. -/
def exSwIn : RoadID → Lane := fun r =>
  if r = 0 then exLanes 10 else if r = 1 then exLanes 12 else exLanes 14

/-- Outgoing sidewalk lane of each of the three roads above. -/
def exSwOut : RoadID → Lane := fun r =>
  if r = 0 then exLanes 11 else if r = 1 then exLanes 13 else exLanes 15

/-- Dead-end road carrying one sidewalk pair (lanes 10 in, 11 out) next
to driving lanes. -/
def exRoadsSingleSw : Roads := fun _ => ⟨0, fun _ => [0, 10], fun _ => [2, 11]⟩

/-- Mixed sidewalk coverage: road 0 carries no sidewalk at all, while
roads 1 and 2 carry full sidewalk pairs. -/
def exRoadsMixed : Roads := fun r =>
  if r = 0 then ⟨0, fun _ => [0], fun _ => [1]⟩
  else if r = 1 then ⟨1, fun _ => [2, 12], fun _ => [3, 13]⟩
  else ⟨2, fun _ => [20, 14], fun _ => [21, 15]⟩

/-- Three-road intersection whose angularly-first road lacks sidewalks. -/
def exInterMixed : Intersection := ⟨0, [0, 1, 2], TurnPolicy.default, []⟩

/-- Which of the mixed roads bear both sidewalks. -/
def exSwMask : RoadID → Bool := fun r => decide (r ≠ 0)

end ScaleExamples

namespace Sim

/-- Road identifier. -/
abbrev RoadID := Nat

/-- Intersection identifier. -/
abbrev IntersectionID := Nat

/-- Two-dimensional vector over the reals. -/
structure Vec2 where
  x : ℝ
  y : ℝ

/-- Componentwise subtraction. -/
instance : Sub Vec2 := ⟨fun a b => ⟨a.x - b.x, a.y - b.y⟩⟩

/-- Componentwise negation. -/
instance : Neg Vec2 := ⟨fun a => ⟨-a.x, -a.y⟩⟩

/-- Dot product. -/
def Vec2.dot (a b : Vec2) : ℝ := a.x * b.x + a.y * b.y

/-- Perpendicular dot product (2D cross product). -/
def Vec2.cross (a b : Vec2) : ℝ := a.x * b.y - a.y * b.x

/-- Modelled from the spec: `Vec2::angle` of the geometry support crate
(not under `src/`), the signed angle from `v` to `w`, computed as
`atan2(cross, dot)`; `atan2(y, x)` is the argument of the complex number
`x + y i`. -/
noncomputable def Vec2.angle (v w : Vec2) : ℝ :=
  Complex.arg ⟨v.dot w, v.cross w⟩

/-- Modelled from the spec: `Vec2::normalize` (geometry support crate),
the vector scaled to unit length. -/
noncomputable def Vec2.normalize (v : Vec2) : Vec2 :=
  ⟨v.x / Real.sqrt (v.x ^ 2 + v.y ^ 2), v.y / Real.sqrt (v.x ^ 2 + v.y ^ 2)⟩

/-- Three-dimensional vector over the reals. -/
structure Vec3 where
  x : ℝ
  y : ℝ
  z : ℝ

/-- Horizontal projection `Vec3::xy`. -/
def Vec3.xy (v : Vec3) : Vec2 := ⟨v.x, v.y⟩

/-- Modelled from the spec: Euclidean distance between two points
(geometry support crate). -/
noncomputable def Vec3.distance (a b : Vec3) : ℝ :=
  Real.sqrt ((a.x - b.x) ^ 2 + (a.y - b.y) ^ 2 + (a.z - b.z) ^ 2)

/-- Roundabout configuration (`turn_policy.roundabout`): only its radius
is read by the interface computation. -/
structure Roundabout where
  radius : ℝ

/-- Turn-policy configuration of the egregoria layer, which extends the
flags with an optional roundabout. -/
structure TurnPolicy where
  back_turns : Bool
  left_turns : Bool
  roundabout : Option Roundabout

/-- Modelled from the spec: the egregoria `Road` restricted to the data
the interface-radius computation and the road-build validator read
(`road.rs` is not under `src/`): endpoints, width, the per-end interface
distance (trim from the intersection), the per-end departure direction,
and the centerline projection `points().project_segment_dir(p)` returning
the projected point, the segment index and the tangent direction there. -/
structure Road where
  id : RoadID
  src : IntersectionID
  dst : IntersectionID
  width : ℝ
  interface_src : ℝ
  interface_dst : ℝ
  dir_src : Vec2
  dir_dst : Vec2
  points_proj : Vec3 → Vec3 × Nat × Vec3

/-- Default road used when an absent store slot is indexed (a panic in
the Rust source). -/
instance : Inhabited Road :=
  ⟨⟨0, 0, 0, 0, 0, 0, ⟨0, 0⟩, ⟨0, 0⟩, fun _ => (⟨0, 0, 0⟩, 0, ⟨0, 0, 0⟩)⟩⟩

/-- Source `Road::dir_from`: departure direction away from the given end. -/
def Road.dir_from (r : Road) (i : IntersectionID) : Vec2 :=
  if i = r.src then r.dir_src else r.dir_dst

/-- Source `Road::interface_from`: stored interface distance at the given end. -/
def Road.interface_from (r : Road) (i : IntersectionID) : ℝ :=
  if i = r.src then r.interface_src else r.interface_dst

/-- Source `Road::set_interface`: set the interface at one end unconditionally. -/
def Road.set_interface (r : Road) (i : IntersectionID) (v : ℝ) : Road :=
  if i = r.src then { r with interface_src := v } else { r with interface_dst := v }

/-- Source `Road::max_interface`: raise (never lower) the interface at one end. -/
noncomputable def Road.max_interface (r : Road) (i : IntersectionID) (v : ℝ) : Road :=
  r.set_interface i (max (r.interface_from i) v)

/-- Road store (`Roads`, a slotmap: lookup may fail). -/
abbrev Roads := RoadID → Option Road

/-- Panicking store indexing `roads[r]`, reading through the default. -/
def getRoad (roads : Roads) (r : RoadID) : Road := (roads r).getD default

/-- Store update at one key. -/
def setRoad (roads : Roads) (r : RoadID) (road : Road) : Roads :=
  fun x => if x = r then some road else roads x

/-- The egregoria `Intersection` restricted to what
`update_interface_radius` reads: identity, position, incident roads in
angular order, and the policy. -/
structure Intersection where
  id : IntersectionID
  pos : Vec3
  roads : List RoadID
  turn_policy : TurnPolicy

/-- Source `Intersection::is_roundabout`: a roundabout is configured and more
than one road is incident. -/
def Intersection.is_roundabout (inter : Intersection) : Bool :=
  inter.turn_policy.roundabout.isSome && decide (inter.roads.length > 1)

/-- Source `Intersection::empty_interface`: the default interface derived from
the road width, `(width * 0.8).max(MIN_INTERFACE)` with
`MIN_INTERFACE = 9.0`. -/
noncomputable def empty_interface (width : ℝ) : ℝ := max (width * 0.8) 9

/-- Source `Intersection::interface_calc`: minimum separation from the two
half-widths and the angle between the departure directions.  When the
sine is zero (parallel departure directions, `clamp(dot, 0, 1) = 1`) the
`f32` division produces `+inf` (or `NaN` at zero width) and Rust's
`f32::min`, which returns the other argument for `inf` and `NaN` alike,
yields exactly 30; the explicit zero-sine branch reproduces that value,
since the real-number division convention `x / 0 = 0` would differ. -/
noncomputable def interface_calc (w1 w2 : ℝ) (dir1 dir2 : Vec2) : ℝ :=
  let hwidth1 := w1 * 0.5
  let hwidth2 := w2 * 0.5
  let w := Real.sqrt (hwidth1 ^ 2 + hwidth2 ^ 2)
  let d := min (max (dir1.dot dir2) 0) 1
  let sin := Real.sqrt (1 - d * d)
  if sin = 0 then 30 else min (w * 1.1 / sin) 30

/-- One step of the reset loop of `update_interface_radius`:
`r.set_interface(id, Self::empty_interface(r.width))`. -/
noncomputable def reset_step (i : IntersectionID) (rs : Roads) (r : RoadID) : Roads :=
  setRoad rs r ((getRoad rs r).set_interface i (empty_interface (getRoad rs r).width))

/-- The reset loop over the incident roads. -/
noncomputable def reset_pass (i : IntersectionID) (l : List RoadID) (rs : Roads) : Roads :=
  l.foldl (reset_step i) rs

/-- One step of the roundabout loop:
`r.max_interface(id, rb.radius * 1.1 + 5.0)`. -/
noncomputable def roundabout_step (i : IntersectionID) (v : ℝ) (rs : Roads)
    (r : RoadID) : Roads :=
  setRoad rs r ((getRoad rs r).max_interface i v)

/-- The roundabout loop over the incident roads. -/
noncomputable def roundabout_pass (i : IntersectionID) (v : ℝ) (l : List RoadID)
    (rs : Roads) : Roads :=
  l.foldl (roundabout_step i v) rs

/-- The `min_dist` computed for one adjacent pair from the current store:
`interface_calc(r1.width, r2.width, r1.dir_from(id), r2.dir_from(id))`. -/
noncomputable def calc_for (i : IntersectionID) (rs : Roads) (p : RoadID × RoadID) : ℝ :=
  interface_calc (getRoad rs p.1).width (getRoad rs p.2).width
    ((getRoad rs p.1).dir_from i) ((getRoad rs p.2).dir_from i)

/-- One step of the pairwise loop: raise both roads of the adjacent pair
to at least the pair's `min_dist`. -/
noncomputable def pair_step (i : IntersectionID) (rs : Roads) (p : RoadID × RoadID) : Roads :=
  setRoad (setRoad rs p.1 ((getRoad rs p.1).max_interface i (calc_for i rs p))) p.2
    ((getRoad (setRoad rs p.1 ((getRoad rs p.1).max_interface i (calc_for i rs p))) p.2).max_interface
      i (calc_for i rs p))

/-- The pairwise loop of `update_interface_radius`: the indices `i` and
`(i + 1) % len` of the Rust loop enumerate exactly the adjacent pairs in
angular order with wrap-around, that is `l.zip (l.rotate 1)`. -/
noncomputable def pairwise_pass (i : IntersectionID) (l : List RoadID) (rs : Roads) : Roads :=
  (l.zip (l.rotate 1)).foldl (pair_step i) rs

/-- Source `Intersection::update_interface_radius`: drop dead road references
(`check_dead_roads`), reset every incident road to the default interface,
apply the roundabout raise when configured and applicable, stop for at
most one incident road, and otherwise run the pairwise separation loop.
Returns the updated intersection and store. -/
noncomputable def Intersection.update_interface_radius (inter : Intersection)
    (roads : Roads) : Intersection × Roads :=
  let inter2 := { inter with roads := inter.roads.filter (fun r => (roads r).isSome) }
  let roads1 := reset_pass inter.id inter2.roads roads
  let roads2 :=
    if inter2.is_roundabout then
      match inter2.turn_policy.roundabout with
      | some rb => roundabout_pass inter.id (rb.radius * 1.1 + 5) inter2.roads roads1
      | none => roads1
    else roads1
  if inter2.roads.length ≤ 1 then (inter2, roads2)
  else (inter2, pairwise_pass inter.id inter2.roads roads2)

/-- Query-classification kinds (`ProjectKind` in the validator). -/
inductive ProjectKind where
  | Ground
  | Road (id : RoadID)
  | Inter (id : IntersectionID)
  | Building (id : Nat)
deriving DecidableEq

/-- A classified spatial query result (`MapProject`). -/
structure MapProject where
  pos : Vec3
  kind : ProjectKind

/-- The map as read by the validator checks: the two stores. -/
structure Map where
  roads : Roads
  intersections : IntersectionID → Option Intersection

open Classical in
/-- Source `check_angle` from `src/native_app/src/gui/roadbuild.rs`: the minimum
turn angle is 30 degrees for ordinary roads and 0 for rail; anchored at
an intersection, the incident roads are scanned with `any`; anchored
mid-road, both directions of the projected tangent are checked. -/
noncomputable def check_angle (map : Map) (fromP : MapProject) (toP : Vec2)
    (is_rail : Bool) : Bool :=
  let max_turn_angle : ℝ := if is_rail then 0 else 30 * Real.pi / 180
  match fromP.kind with
  | ProjectKind.Inter i =>
      match map.intersections i with
      | none => false
      | some inter =>
          inter.roads.any (fun road_id =>
            decide (|Vec2.angle ((getRoad map.roads road_id).dir_from i)
                ((toP - inter.pos.xy).normalize)| ≥ max_turn_angle))
  | ProjectKind.Road rid =>
      match map.roads rid with
      | none => false
      | some r =>
          decide (|Vec2.angle ((r.points_proj fromP.pos).2.2.xy)
              ((toP - (r.points_proj fromP.pos).1.xy).normalize)| ≥ max_turn_angle)
            && decide (|Vec2.angle (-(r.points_proj fromP.pos).2.2.xy)
              ((toP - (r.points_proj fromP.pos).1.xy).normalize)| ≥ max_turn_angle)
  | _ => true

open Classical in
/-- Source `compatible` from `src/native_app/src/gui/roadbuild.rs`: positions
closer than 10 are always rejected; then ground pairs with ground, road
or intersection, distinct roads pair, distinct intersections pair, and a
road pairs with an intersection it does not terminate at; every other
combination (for example anything involving a building) is rejected. -/
noncomputable def compatible (map : Map) (x y : MapProject) : Bool :=
  if x.pos.distance y.pos < 10 then false
  else
    match x.kind, y.kind with
    | ProjectKind.Ground, ProjectKind.Ground => true
    | ProjectKind.Ground, ProjectKind.Road _ => true
    | ProjectKind.Ground, ProjectKind.Inter _ => true
    | ProjectKind.Road _, ProjectKind.Ground => true
    | ProjectKind.Inter _, ProjectKind.Ground => true
    | ProjectKind.Road id1, ProjectKind.Road id2 => decide (id1 ≠ id2)
    | ProjectKind.Inter id1, ProjectKind.Inter id2 => decide (id1 ≠ id2)
    | ProjectKind.Inter id_inter, ProjectKind.Road id_road =>
        decide ((getRoad map.roads id_road).src ≠ id_inter)
          && decide ((getRoad map.roads id_road).dst ≠ id_inter)
    | ProjectKind.Road id_road, ProjectKind.Inter id_inter =>
        decide ((getRoad map.roads id_road).src ≠ id_inter)
          && decide ((getRoad map.roads id_road).dst ≠ id_inter)
    | _, _ => false

end Sim

section SimExamples

open Sim

/-- Road heading east out of intersection 0 (witness input for the
interface-radius theorems). -/
noncomputable def exSimRoad0 : Road :=
  ⟨0, 0, 2, 8, 9, 9, ⟨1, 0⟩, ⟨-1, 0⟩, fun _ => (⟨0, 0, 0⟩, 0, ⟨0, 0, 0⟩)⟩

/-- Road heading north out of intersection 0. -/
noncomputable def exSimRoad1 : Road :=
  ⟨1, 0, 3, 8, 9, 9, ⟨0, 1⟩, ⟨0, -1⟩, fun _ => (⟨0, 0, 0⟩, 0, ⟨0, 0, 0⟩)⟩

/-- Store with the two roads above. -/
noncomputable def exSimRoads : Roads := fun r =>
  if r = 0 then some exSimRoad0 else if r = 1 then some exSimRoad1 else none

/-- Two-road intersection without roundabout. -/
noncomputable def exSimInter : Intersection :=
  ⟨0, ⟨0, 0, 0⟩, [0, 1], ⟨false, true, none⟩⟩

/-- Store holding a single dead-end road (key 5). -/
noncomputable def exSimRoadsSingle : Roads :=
  fun r => if r = 5 then some exSimRoad0 else none

/-- Intersection with the single incident road 5, with a roundabout
configured (which must still not apply to a dead end). -/
noncomputable def exSimInterSingle : Intersection :=
  ⟨0, ⟨0, 0, 0⟩, [5], ⟨false, true, some ⟨20⟩⟩⟩

/-- Validator map for the angle-check theorems: intersection 7 at the
origin with the two roads above incident (their `src` end renamed to 7). -/
noncomputable def exAngleRoads : Roads := fun r =>
  if r = 0 then some ⟨0, 7, 2, 8, 9, 9, ⟨1, 0⟩, ⟨-1, 0⟩, fun _ => (⟨0, 0, 0⟩, 0, ⟨0, 0, 0⟩)⟩
  else if r = 1 then some ⟨1, 7, 3, 8, 9, 9, ⟨0, 1⟩, ⟨0, -1⟩, fun _ => (⟨0, 0, 0⟩, 0, ⟨0, 0, 0⟩)⟩
  else none

/-- The intersection record backing identifier 7. -/
noncomputable def exAngleInter : Intersection :=
  ⟨7, ⟨0, 0, 0⟩, [0, 1], ⟨false, true, none⟩⟩

/-- The validator map with stores as above. -/
noncomputable def exAngleMap : Map :=
  ⟨exAngleRoads, fun i => if i = 7 then some exAngleInter else none⟩

/-- Query anchored at intersection 7. -/
noncomputable def exAngleFrom : MapProject := ⟨⟨0, 0, 0⟩, ProjectKind.Inter 7⟩

/-- Candidate target point five units north of intersection 7: 90
degrees away from road 0 but exactly aligned with road 1. -/
noncomputable def exAngleTo : Vec2 := ⟨0, 5⟩

/-- Ground endpoint at the origin. -/
noncomputable def exGroundProj : MapProject := ⟨⟨0, 0, 0⟩, ProjectKind.Ground⟩

/-- Building endpoint twenty units east of the origin. -/
noncomputable def exBuildingProj : MapProject := ⟨⟨20, 0, 0⟩, ProjectKind.Building 0⟩

/-- Empty map (the compatibility check only reads roads for
road-intersection pairs). -/
noncomputable def exEmptyMap : Map := ⟨fun _ => none, fun _ => none⟩

end SimExamples

-- Theorems.

section ScaleTheorems

open Scale

lemma length_all (iid : IntersectionID) (inc out : List LaneID) :
    (TurnPolicy.all iid inc out).length = inc.length * out.length := by
  induction inc with
  | nil => simp [TurnPolicy.all]
  | cons a t ih =>
      simp only [TurnPolicy.all, List.flatMap_cons, List.length_append,
        List.length_map, List.length_cons] at ih ⊢
      rw [ih, Nat.succ_mul, Nat.add_comm]

lemma mem_all (iid : IntersectionID) (inc out : List LaneID) (s d : LaneID) :
    (TurnID.new iid s d, TurnKind.Normal) ∈ TurnPolicy.all iid inc out
      ↔ s ∈ inc ∧ d ∈ out := by
  unfold TurnPolicy.all
  rw [List.mem_flatMap]
  constructor
  · rintro ⟨a, ha, hm⟩
    rw [List.mem_map] at hm
    obtain ⟨b, hb, heq⟩ := hm
    simp only [TurnID.new, Prod.mk.injEq, TurnID.mk.injEq] at heq
    obtain ⟨⟨-, rfl, rfl⟩, -⟩ := heq
    exact ⟨ha, hb⟩
  · rintro ⟨hs, hd⟩
    exact ⟨s, hs, List.mem_map.mpr ⟨d, hd, rfl⟩⟩

/-- C2: at a dead-end intersection (exactly one incident road), the
vehicle turns are exactly the index-matched pairs of the road's incoming
and outgoing vehicle-capable lanes when the two counts agree, and the
full cross product (every incoming lane paired with every outgoing lane,
so 2 incoming and 3 outgoing yield 6 turns) when they differ. -/
theorem vehicle_turns_single_road (p : TurnPolicy) (inter : Intersection)
    (lanes : Lanes) (roads : Roads) (r : RoadID) (h : inter.roads = [r]) :
    ((filter_vehicles ((roads r).incoming_lanes_to inter.id) lanes).length
          = (filter_vehicles ((roads r).outgoing_lanes_from inter.id) lanes).length
      → p.generate_vehicle_turns inter lanes roads
          = ((filter_vehicles ((roads r).incoming_lanes_to inter.id) lanes).zip
              (filter_vehicles ((roads r).outgoing_lanes_from inter.id) lanes)).map
            (fun q => (TurnID.new inter.id q.1 q.2, TurnKind.Normal)))
    ∧ ((filter_vehicles ((roads r).incoming_lanes_to inter.id) lanes).length
          ≠ (filter_vehicles ((roads r).outgoing_lanes_from inter.id) lanes).length
      → (p.generate_vehicle_turns inter lanes roads).length
            = (filter_vehicles ((roads r).incoming_lanes_to inter.id) lanes).length
              * (filter_vehicles ((roads r).outgoing_lanes_from inter.id) lanes).length
        ∧ ∀ s d : LaneID,
            ((TurnID.new inter.id s d, TurnKind.Normal)
                ∈ p.generate_vehicle_turns inter lanes roads
              ↔ s ∈ filter_vehicles ((roads r).incoming_lanes_to inter.id) lanes
                ∧ d ∈ filter_vehicles ((roads r).outgoing_lanes_from inter.id) lanes)) := by
  constructor
  · intro hlen
    simp only [TurnPolicy.generate_vehicle_turns, h, TurnPolicy.zip_on_same_length,
      if_pos hlen, TurnPolicy.zip]
  · intro hlen
    simp only [TurnPolicy.generate_vehicle_turns, h, TurnPolicy.zip_on_same_length,
      if_neg hlen]
    exact ⟨length_all _ _ _, fun s d => mem_all _ _ _ s d⟩

/-- C2 witness: the dead-end road with 2 incoming and 3 outgoing driving
lanes yields the 6 cross-product turns. -/
theorem vehicle_turns_single_road_wit :
    exInterSingle.roads = [0]
      ∧ ((filter_vehicles ((exRoadsSingle 0).incoming_lanes_to exInterSingle.id) exLanes).length
            = (filter_vehicles ((exRoadsSingle 0).outgoing_lanes_from exInterSingle.id) exLanes).length
          → TurnPolicy.default.generate_vehicle_turns exInterSingle exLanes exRoadsSingle
            = ((filter_vehicles ((exRoadsSingle 0).incoming_lanes_to exInterSingle.id) exLanes).zip
                (filter_vehicles ((exRoadsSingle 0).outgoing_lanes_from exInterSingle.id) exLanes)).map
              (fun q => (TurnID.new exInterSingle.id q.1 q.2, TurnKind.Normal)))
        ∧ ((filter_vehicles ((exRoadsSingle 0).incoming_lanes_to exInterSingle.id) exLanes).length
            ≠ (filter_vehicles ((exRoadsSingle 0).outgoing_lanes_from exInterSingle.id) exLanes).length
          → (TurnPolicy.default.generate_vehicle_turns exInterSingle exLanes exRoadsSingle).length
              = (filter_vehicles ((exRoadsSingle 0).incoming_lanes_to exInterSingle.id) exLanes).length
                * (filter_vehicles ((exRoadsSingle 0).outgoing_lanes_from exInterSingle.id) exLanes).length
            ∧ ∀ s d : LaneID,
                ((TurnID.new exInterSingle.id s d, TurnKind.Normal)
                    ∈ TurnPolicy.default.generate_vehicle_turns exInterSingle exLanes exRoadsSingle
                  ↔ s ∈ filter_vehicles ((exRoadsSingle 0).incoming_lanes_to exInterSingle.id) exLanes
                    ∧ d ∈ filter_vehicles ((exRoadsSingle 0).outgoing_lanes_from exInterSingle.id) exLanes)) :=
  ⟨rfl, vehicle_turns_single_road TurnPolicy.default exInterSingle exLanes exRoadsSingle 0 rfl⟩

/-- C10: a dead-end intersection whose single road carries both an
incoming and an outgoing sidewalk gets exactly one pedestrian turn, a
walking corner from that road's incoming sidewalk to its own outgoing
sidewalk, and no crosswalk. -/
theorem walking_turns_single_road (p : TurnPolicy) (inter : Intersection)
    (lanes : Lanes) (roads : Roads) (r : RoadID) (li lo : Lane)
    (h : inter.roads = [r])
    (hsw : (roads r).sidewalks inter.id lanes = (some li, some lo)) :
    p.generate_walking_turns inter lanes roads
      = [(TurnID.new inter.id li.id lo.id, TurnKind.WalkingCorner)] := by
  simp [TurnPolicy.generate_walking_turns, sidewalk_pair, h, hsw, windows2]

/-- C10 witness: the dead-end road with sidewalk lanes 10 and 11 yields
the single self corner. -/
theorem walking_turns_single_road_wit :
    exInterSingle.roads = [0]
      ∧ (exRoadsSingleSw 0).sidewalks exInterSingle.id exLanes
          = (some (exLanes 10), some (exLanes 11))
      ∧ TurnPolicy.default.generate_walking_turns exInterSingle exLanes exRoadsSingleSw
          = [(TurnID.new exInterSingle.id (exLanes 10).id (exLanes 11).id,
              TurnKind.WalkingCorner)] :=
  ⟨rfl, by decide,
    walking_turns_single_road TurnPolicy.default exInterSingle exLanes exRoadsSingleSw 0
      (exLanes 10) (exLanes 11) rfl (by decide)⟩

/-- C9: regenerating the turn set twice in a row from the same lanes and
roads leaves the turn set of the second call identical (same identities
with the same kinds) to the turn set of the first call. -/
theorem update_turns_idempotent (inter : Intersection) (lanes : Lanes)
    (roads : Roads) :
    ((inter.update_turns lanes roads).update_turns lanes roads).turns
      = (inter.update_turns lanes roads).turns := by
  cases inter
  rfl

/-- C8 counterexample: for the one-way configuration with one lane,
sidewalks and parking, the lanes produced by `build` sum to 24 width
units while `width()` returns 32. -/
theorem lane_pattern_width_cx :
    lanesWidth (LanePatternBuilder.build ⟨1, true, true, true⟩).lanes_forward
        + lanesWidth (LanePatternBuilder.build ⟨1, true, true, true⟩).lanes_backward
      ≠ LanePatternBuilder.width ⟨1, true, true, true⟩ := by
  norm_num [lanesWidth, LanePatternBuilder.build, LanePatternBuilder.width,
    LaneKind.width, List.replicate]

/-- C8 (amended): for every configuration with `one_way = false`, the sum
of the lane widths over the forward and backward lists produced by
`build` equals the value of the pure accessor `width()`; one-way
configurations fall short of `width()` by the widths of the removed
backward driving lanes. -/
theorem lane_pattern_width_eq (b : LanePatternBuilder) (h : b.one_way = false) :
    lanesWidth (b.build).lanes_forward + lanesWidth (b.build).lanes_backward
      = b.width := by
  rcases b with ⟨n, sw, pk, ow⟩
  cases ow
  · cases sw <;> cases pk <;>
      simp [LanePatternBuilder.build, LanePatternBuilder.width, lanesWidth,
        LaneKind.width, List.map_replicate, List.sum_replicate, nsmul_eq_mul] <;>
      ring
  · cases h

/-- C8 witness: a two-lane two-way road with sidewalks and no parking has
matching widths. -/
theorem lane_pattern_width_eq_wit :
    (⟨2, true, false, false⟩ : LanePatternBuilder).one_way = false
      ∧ lanesWidth (LanePatternBuilder.build ⟨2, true, false, false⟩).lanes_forward
          + lanesWidth (LanePatternBuilder.build ⟨2, true, false, false⟩).lanes_backward
        = LanePatternBuilder.width ⟨2, true, false, false⟩ :=
  ⟨rfl, lane_pattern_width_eq ⟨2, true, false, false⟩ rfl⟩

lemma filterMap_if_eq_filter_map {α β : Type} (f : α → Option β) (sw : α → Bool)
    (g : α → β) :
    ∀ l : List α, (∀ x ∈ l, f x = if sw x then some (g x) else none) →
      l.filterMap f = (l.filter sw).map g := by
  intro l
  induction l with
  | nil => intro _; rfl
  | cons a t ih =>
      intro h
      have ht := ih (fun x hx => h x (List.mem_cons_of_mem a hx))
      by_cases hs : sw a = true
      · rw [List.filterMap_cons, h a (List.mem_cons_self a t), if_pos hs,
          List.filter_cons_of_pos hs, List.map_cons, ht]
      · rw [List.filterMap_cons, h a (List.mem_cons_self a t), if_neg hs,
          List.filter_cons_of_neg hs, ht]

lemma windows2_map {α β : Type} (g : α → β) (l : List α) :
    windows2 (l.map g) = (windows2 l).map (fun q => (g q.1, g q.2)) := by
  unfold windows2
  rw [← List.map_tail, List.zip_map]
  rfl

lemma zip_truncate {α β : Type} :
    ∀ (l : List α) (r : List β) (s : List α), r.length ≤ l.length →
      (l ++ s).zip r = l.zip r := by
  intro l
  induction l with
  | nil =>
      intro r s h
      rw [List.length_nil, Nat.le_zero, List.length_eq_zero] at h
      subst h
      simp
  | cons a t ih =>
      intro r s h
      cases r with
      | nil => simp
      | cons b rt =>
          simp only [List.cons_append, List.zip_cons_cons, List.cons.injEq, true_and]
          exact ih rt s (Nat.le_of_succ_le_succ h)

lemma windows2_chain {α : Type} (a : α) (t : List α) :
    windows2 ((a :: t) ++ [a]) = (a :: t).zip ((a :: t).rotate 1) := by
  have hrot : (a :: t).rotate 1 = t ++ [a] := by
    rw [List.rotate_cons_succ, List.rotate_zero]
  rw [hrot]
  unfold windows2
  have htail : ((a :: t) ++ [a]).tail = t ++ [a] := by
    simp
  rw [htail]
  apply zip_truncate
  simp

/-- C4 counterexample: at a two-road intersection where road 0 carries
sidewalk lanes 10 (incoming) / 11 (outgoing) and road 1 carries 12
(incoming) / 13 (outgoing), the generated walking corners are 10 → 13 and
12 → 11 (incoming sidewalk of a road to outgoing sidewalk of the next);
the turns 11 → 12 and 13 → 10 predicted by the claim (outgoing sidewalk
of a road to incoming sidewalk of the next) are not generated. -/
theorem walking_corner_direction_cx :
    (TurnID.new 0 10 13, TurnKind.WalkingCorner)
        ∈ TurnPolicy.default.generate_walking_turns exInterTwoSw exLanes exRoadsTwoSw
      ∧ (TurnID.new 0 11 12, TurnKind.WalkingCorner)
          ∉ TurnPolicy.default.generate_walking_turns exInterTwoSw exLanes exRoadsTwoSw
      ∧ (TurnID.new 0 13 10, TurnKind.WalkingCorner)
          ∉ TurnPolicy.default.generate_walking_turns exInterTwoSw exLanes exRoadsTwoSw := by
  decide

/-- C4 (amended): for every intersection, with `sw r` saying whether
incident road `r` bears both sidewalks and `swIn r` / `swOut r` naming
them, the pedestrian turns are determined as follows.  An empty road list
yields no turns.  Otherwise the sidewalk-bearing roads are taken in
angular order; when the angularly-first incident road bears both
sidewalks the consecutive pairs wrap around (zip with rotate 1), and when
it does not there is no wrap-around pair (plain consecutive windows of
the filtered list).  Each pair yields one WalkingCorner from the first
road's incoming sidewalk to the second road's outgoing sidewalk and,
exactly when more than two roads meet, one Crosswalk connecting the first
road's own outgoing and incoming sidewalks; a two-road intersection gets
no crosswalk turns. -/
theorem walking_turns_wrap_char (p : TurnPolicy) (inter : Intersection)
    (lanes : Lanes) (roads : Roads) (swIn swOut : RoadID → Lane)
    (sw : RoadID → Bool)
    (hsw : ∀ r ∈ inter.roads,
      sidewalk_pair inter.id lanes roads r
        = if sw r then some (swIn r, swOut r) else none) :
    (inter.roads = [] → p.generate_walking_turns inter lanes roads = [])
    ∧ (∀ a t, inter.roads = a :: t → sw a = true →
        p.generate_walking_turns inter lanes roads
          = ((inter.roads.filter sw).zip ((inter.roads.filter sw).rotate 1)).flatMap
              (fun q =>
                (TurnID.new inter.id (swIn q.1).id (swOut q.2).id,
                    TurnKind.WalkingCorner) ::
                  (if inter.roads.length > 2 then
                    [(TurnID.new inter.id (swOut q.1).id (swIn q.1).id,
                      TurnKind.Crosswalk)]
                  else [])))
    ∧ (∀ a t, inter.roads = a :: t → sw a = false →
        p.generate_walking_turns inter lanes roads
          = (windows2 (inter.roads.filter sw)).flatMap
              (fun q =>
                (TurnID.new inter.id (swIn q.1).id (swOut q.2).id,
                    TurnKind.WalkingCorner) ::
                  (if inter.roads.length > 2 then
                    [(TurnID.new inter.id (swOut q.1).id (swIn q.1).id,
                      TurnKind.Crosswalk)]
                  else []))) := by
  have hws := filterMap_if_eq_filter_map (sidewalk_pair inter.id lanes roads) sw
    (fun r => (swIn r, swOut r)) (inter.roads ++ inter.roads.take 1)
    (fun x hx => by
      rcases List.mem_append.mp hx with h | h
      · exact hsw x h
      · exact hsw x (List.mem_of_mem_take h))
  refine ⟨?_, ?_, ?_⟩
  · intro h0
    unfold TurnPolicy.generate_walking_turns
    rw [h0]
    rfl
  · intro a t hr hswa
    unfold TurnPolicy.generate_walking_turns
    rw [hws, hr, List.take_succ_cons, List.take_zero, List.filter_append,
      List.filter_cons_of_pos hswa, List.filter_cons_of_pos hswa, List.filter_nil,
      windows2_map, windows2_chain, List.flatMap_map]
  · intro a t hr hswa
    have hswa' : ¬(sw a = true) := by
      rw [hswa]
      exact Bool.false_ne_true
    unfold TurnPolicy.generate_walking_turns
    rw [hws, hr, List.take_succ_cons, List.take_zero, List.filter_append,
      List.filter_cons_of_neg hswa', List.filter_cons_of_neg hswa', List.filter_nil,
      List.append_nil, windows2_map, List.flatMap_map]

/-- C4 amended-claim witness: the three-road intersection whose
angularly-first road bears no sidewalk, exercising the filtered pairing
without wrap-around. -/
theorem walking_turns_wrap_char_wit :
    (∀ r ∈ exInterMixed.roads,
        sidewalk_pair exInterMixed.id exLanes exRoadsMixed r
          = if exSwMask r then some (exSwIn r, exSwOut r) else none)
    ∧ ((exInterMixed.roads = []
          → TurnPolicy.default.generate_walking_turns exInterMixed exLanes exRoadsMixed
            = [])
      ∧ (∀ a t, exInterMixed.roads = a :: t → exSwMask a = true →
          TurnPolicy.default.generate_walking_turns exInterMixed exLanes exRoadsMixed
            = ((exInterMixed.roads.filter exSwMask).zip
                  ((exInterMixed.roads.filter exSwMask).rotate 1)).flatMap
                (fun q =>
                  (TurnID.new exInterMixed.id (exSwIn q.1).id (exSwOut q.2).id,
                      TurnKind.WalkingCorner) ::
                    (if exInterMixed.roads.length > 2 then
                      [(TurnID.new exInterMixed.id (exSwOut q.1).id (exSwIn q.1).id,
                        TurnKind.Crosswalk)]
                    else [])))
      ∧ (∀ a t, exInterMixed.roads = a :: t → exSwMask a = false →
          TurnPolicy.default.generate_walking_turns exInterMixed exLanes exRoadsMixed
            = (windows2 (exInterMixed.roads.filter exSwMask)).flatMap
                (fun q =>
                  (TurnID.new exInterMixed.id (exSwIn q.1).id (exSwOut q.2).id,
                      TurnKind.WalkingCorner) ::
                    (if exInterMixed.roads.length > 2 then
                      [(TurnID.new exInterMixed.id (exSwOut q.1).id (exSwIn q.1).id,
                        TurnKind.Crosswalk)]
                    else [])))) :=
  ⟨by decide,
    walking_turns_wrap_char TurnPolicy.default exInterMixed exLanes exRoadsMixed
      exSwIn exSwOut exSwMask (by decide)⟩

lemma mem_vehicle_loop_pair (p : TurnPolicy) (iid : IntersectionID)
    (lanes : Lanes) (roads : Roads) (hid : ∀ l, (lanes l).id = l)
    (r1 r2 : RoadID) (l1 l2 : LaneID) :
    (TurnID.new iid l1 l2, TurnKind.Normal)
        ∈ vehicle_loop_pair p iid lanes roads r1 r2
      ↔ ¬(r1 = r2 ∧ p.back_turns = false)
        ∧ l1 ∈ (roads r1).incoming_lanes_to iid
        ∧ l2 ∈ (roads r2).outgoing_lanes_from iid
        ∧ (lanes l1).kind.vehicles = true ∧ (lanes l2).kind.vehicles = true
        ∧ (p.left_turns = true
            ∨ (Vec2.mk (lanes l1).get_orientation_vec.y
                (-(lanes l1).get_orientation_vec.x)).dot (lanes l2).get_orientation_vec
              ≥ -(3/10 : ℚ)) := by
  unfold vehicle_loop_pair
  by_cases hbt : r1 = r2 ∧ p.back_turns = false
  · have hcond : (r1 = r2 && !p.back_turns) = true := by
      rw [hbt.2]
      simp [hbt.1]
    rw [if_pos hcond]
    simp [hbt]
  · have hcond : ¬((r1 = r2 && !p.back_turns) = true) := by
      intro hc
      rw [Bool.and_eq_true, decide_eq_true_eq, Bool.not_eq_true'] at hc
      exact hbt hc
    rw [if_neg hcond]
    rw [List.mem_flatMap]
    constructor
    · rintro ⟨inc, hin, hm⟩
      rw [List.mem_filterMap] at hm
      obtain ⟨out, hout, heq⟩ := hm
      by_cases hveh : (!(lanes inc).kind.vehicles || !(lanes out).kind.vehicles) = true
      · rw [if_pos hveh] at heq
        cases heq
      · rw [if_neg hveh] at heq
        have hveh' := Bool.or_eq_false_iff.mp (Bool.eq_false_iff.mpr hveh)
        rw [Bool.not_eq_false'] at hveh'
        rw [Bool.not_eq_false'] at hveh'
        by_cases hturn : (p.left_turns
            || decide ((Vec2.mk (lanes inc).get_orientation_vec.y
                (-(lanes inc).get_orientation_vec.x)).dot (lanes out).get_orientation_vec
              ≥ -(3/10 : ℚ))) = true
        · rw [if_pos hturn] at heq
          have hpair := Option.some.inj heq
          have hids : (lanes inc).id = l1 ∧ (lanes out).id = l2 := by
            have h1 := congrArg Prod.fst hpair
            simp only [TurnID.new, TurnID.mk.injEq] at h1
            exact ⟨h1.2.1, h1.2.2⟩
          rw [hid inc] at hids
          rw [hid out] at hids
          obtain ⟨rfl, rfl⟩ := hids
          refine ⟨hbt, hin, hout, hveh'.1, hveh'.2, ?_⟩
          rw [Bool.or_eq_true, decide_eq_true_eq] at hturn
          exact hturn
        · rw [if_neg hturn] at heq
          cases heq
    · rintro ⟨-, hin, hout, hv1, hv2, hturn⟩
      refine ⟨l1, hin, ?_⟩
      rw [List.mem_filterMap]
      refine ⟨l2, hout, ?_⟩
      have hveh : ¬((!(lanes l1).kind.vehicles || !(lanes l2).kind.vehicles) = true) := by
        rw [hv1, hv2]
        decide
      rw [if_neg hveh]
      have hturn' : (p.left_turns
          || decide ((Vec2.mk (lanes l1).get_orientation_vec.y
              (-(lanes l1).get_orientation_vec.x)).dot (lanes l2).get_orientation_vec
            ≥ -(3/10 : ℚ))) = true := by
        rcases hturn with h | h
        · rw [h, Bool.true_or]
        · rw [decide_eq_true h, Bool.or_true]
      rw [if_pos hturn']
      rw [hid l1, hid l2]

lemma mem_vehicle_loop (p : TurnPolicy) (iid : IntersectionID)
    (rlist : List RoadID) (lanes : Lanes) (roads : Roads)
    (hid : ∀ l, (lanes l).id = l) (l1 l2 : LaneID) :
    (TurnID.new iid l1 l2, TurnKind.Normal)
        ∈ vehicle_loop p iid rlist lanes roads
      ↔ ∃ r1 ∈ rlist, ∃ r2 ∈ rlist,
          l1 ∈ (roads r1).incoming_lanes_to iid
          ∧ l2 ∈ (roads r2).outgoing_lanes_from iid
          ∧ (r1 ≠ r2 ∨ p.back_turns = true)
          ∧ (lanes l1).kind.vehicles = true ∧ (lanes l2).kind.vehicles = true
          ∧ (p.left_turns = true
              ∨ (Vec2.mk (lanes l1).get_orientation_vec.y
                  (-(lanes l1).get_orientation_vec.x)).dot (lanes l2).get_orientation_vec
                ≥ -(3/10 : ℚ)) := by
  unfold vehicle_loop
  simp only [List.mem_flatMap]
  constructor
  · rintro ⟨r1, hr1, r2, hr2, hm⟩
    rw [mem_vehicle_loop_pair p iid lanes roads hid r1 r2 l1 l2] at hm
    obtain ⟨hbt, hin, hout, hv1, hv2, hturn⟩ := hm
    refine ⟨r1, hr1, r2, hr2, hin, hout, ?_, hv1, hv2, hturn⟩
    by_cases hrr : r1 = r2
    · right
      cases hb : p.back_turns
      · exact absurd ⟨hrr, hb⟩ hbt
      · rfl
    · exact Or.inl hrr
  · rintro ⟨r1, hr1, r2, hr2, hin, hout, hbt, hv1, hv2, hturn⟩
    refine ⟨r1, hr1, r2, hr2, ?_⟩
    rw [mem_vehicle_loop_pair p iid lanes roads hid r1 r2 l1 l2]
    refine ⟨?_, hin, hout, hv1, hv2, hturn⟩
    rintro ⟨rfl, hb⟩
    rcases hbt with h | h
    · exact h rfl
    · rw [h] at hb
      cases hb

/-- C3: at an intersection with three or more incident roads, a vehicle
turn from incoming lane `l1` of road `r1` to outgoing lane `l2` of road
`r2` is generated exactly when both lanes are vehicle-capable, the roads
are distinct or back turns are enabled, and either left turns are enabled
or the dot product of `l1`'s right-hand perpendicular with `l2`'s
direction is at least −0.3. -/
theorem vehicle_turns_general_iff (p : TurnPolicy) (inter : Intersection)
    (lanes : Lanes) (roads : Roads) (hid : ∀ l, (lanes l).id = l)
    (h3 : 3 ≤ inter.roads.length) (l1 l2 : LaneID) :
    ((TurnID.new inter.id l1 l2, TurnKind.Normal)
        ∈ p.generate_vehicle_turns inter lanes roads)
      ↔ ∃ r1 ∈ inter.roads, ∃ r2 ∈ inter.roads,
          l1 ∈ (roads r1).incoming_lanes_to inter.id
          ∧ l2 ∈ (roads r2).outgoing_lanes_from inter.id
          ∧ (r1 ≠ r2 ∨ p.back_turns = true)
          ∧ (lanes l1).kind.vehicles = true ∧ (lanes l2).kind.vehicles = true
          ∧ (p.left_turns = true
              ∨ (Vec2.mk (lanes l1).get_orientation_vec.y
                  (-(lanes l1).get_orientation_vec.x)).dot (lanes l2).get_orientation_vec
                ≥ -(3/10 : ℚ)) := by
  have hloop : p.generate_vehicle_turns inter lanes roads
      = vehicle_loop p inter.id inter.roads lanes roads := by
    rcases hr : inter.roads with _ | ⟨a, _ | ⟨b, _ | ⟨c, t⟩⟩⟩
    · rw [hr] at h3
      cases h3
    · rw [hr] at h3
      simp only [List.length_cons, List.length_nil] at h3
      omega
    · rw [hr] at h3
      simp only [List.length_cons, List.length_nil] at h3
      omega
    · unfold TurnPolicy.generate_vehicle_turns
      rw [hr]
  rw [hloop]
  exact mem_vehicle_loop p inter.id inter.roads lanes roads hid l1 l2

/-- C3 witness: the three-road intersection with lane identities equal to
their store keys; lane 0 of road 0 and lane 3 of road 1 are both
vehicle-capable and the default policy allows left turns. -/
theorem vehicle_turns_general_iff_wit :
    (∀ l, (exLanes l).id = l)
      ∧ 3 ≤ exInterThree.roads.length
      ∧ (((TurnID.new exInterThree.id 0 3, TurnKind.Normal)
          ∈ TurnPolicy.default.generate_vehicle_turns exInterThree exLanes exRoadsThree)
        ↔ ∃ r1 ∈ exInterThree.roads, ∃ r2 ∈ exInterThree.roads,
            0 ∈ (exRoadsThree r1).incoming_lanes_to exInterThree.id
            ∧ 3 ∈ (exRoadsThree r2).outgoing_lanes_from exInterThree.id
            ∧ (r1 ≠ r2 ∨ TurnPolicy.default.back_turns = true)
            ∧ (exLanes 0).kind.vehicles = true ∧ (exLanes 3).kind.vehicles = true
            ∧ (TurnPolicy.default.left_turns = true
                ∨ (Vec2.mk (exLanes 0).get_orientation_vec.y
                    (-(exLanes 0).get_orientation_vec.x)).dot (exLanes 3).get_orientation_vec
                  ≥ -(3/10 : ℚ))) :=
  ⟨fun l => by
      unfold exLanes
      by_cases h1 : l < 10
      · rw [if_pos h1]
      · rw [if_neg h1]
        by_cases h2 : l < 20
        · rw [if_pos h2]
        · rw [if_neg h2],
    by decide,
    vehicle_turns_general_iff TurnPolicy.default exInterThree exLanes exRoadsThree
      (fun l => by
        unfold exLanes
        by_cases h1 : l < 10
        · rw [if_pos h1]
        · rw [if_neg h1]
          by_cases h2 : l < 20
          · rw [if_pos h2]
          · rw [if_neg h2])
      (by decide) 0 3⟩

end ScaleTheorems

section SimTheorems

open Sim

lemma getRoad_setRoad (rs : Sim.Roads) (r : Sim.RoadID) (road : Sim.Road)
    (r' : Sim.RoadID) :
    getRoad (setRoad rs r road) r' = if r' = r then road else getRoad rs r' := by
  by_cases h : r' = r <;> simp [Sim.getRoad, Sim.setRoad, h]

lemma width_set_interface (r : Sim.Road) (i : Sim.IntersectionID) (v : ℝ) :
    (r.set_interface i v).width = r.width := by
  unfold Sim.Road.set_interface
  split <;> rfl

lemma dir_from_set_interface (r : Sim.Road) (i j : Sim.IntersectionID) (v : ℝ) :
    (r.set_interface i v).dir_from j = r.dir_from j := by
  unfold Sim.Road.set_interface Sim.Road.dir_from
  split <;> rfl

lemma interface_from_set_interface (r : Sim.Road) (i : Sim.IntersectionID) (v : ℝ) :
    (r.set_interface i v).interface_from i = v := by
  unfold Sim.Road.set_interface Sim.Road.interface_from
  by_cases h : i = r.src <;> simp [h]

lemma width_max_interface (r : Sim.Road) (i : Sim.IntersectionID) (v : ℝ) :
    (r.max_interface i v).width = r.width :=
  width_set_interface r i _

lemma dir_from_max_interface (r : Sim.Road) (i j : Sim.IntersectionID) (v : ℝ) :
    (r.max_interface i v).dir_from j = r.dir_from j :=
  dir_from_set_interface r i j _

lemma interface_from_max_interface (r : Sim.Road) (i : Sim.IntersectionID) (v : ℝ) :
    (r.max_interface i v).interface_from i = max (r.interface_from i) v :=
  interface_from_set_interface r i _

lemma interface_le_setmax (rs : Sim.Roads) (a : Sim.RoadID) (i : Sim.IntersectionID)
    (v : ℝ) (r : Sim.RoadID) :
    (getRoad rs r).interface_from i
      ≤ (getRoad (setRoad rs a ((getRoad rs a).max_interface i v)) r).interface_from i := by
  rw [getRoad_setRoad]
  by_cases h : r = a
  · subst h
    rw [if_pos rfl, interface_from_max_interface]
    exact le_max_left _ _
  · rw [if_neg h]

lemma width_setmax (rs : Sim.Roads) (a : Sim.RoadID) (i : Sim.IntersectionID)
    (v : ℝ) (r : Sim.RoadID) :
    (getRoad (setRoad rs a ((getRoad rs a).max_interface i v)) r).width
      = (getRoad rs r).width := by
  rw [getRoad_setRoad]
  by_cases h : r = a
  · subst h
    rw [if_pos rfl, width_max_interface]
  · rw [if_neg h]

lemma dir_setmax (rs : Sim.Roads) (a : Sim.RoadID) (i j : Sim.IntersectionID)
    (v : ℝ) (r : Sim.RoadID) :
    (getRoad (setRoad rs a ((getRoad rs a).max_interface i v)) r).dir_from j
      = (getRoad rs r).dir_from j := by
  rw [getRoad_setRoad]
  by_cases h : r = a
  · subst h
    rw [if_pos rfl, dir_from_max_interface]
  · rw [if_neg h]

lemma interface_le_pair_step (i : Sim.IntersectionID) (rs : Sim.Roads)
    (p : Sim.RoadID × Sim.RoadID) (r : Sim.RoadID) :
    (getRoad rs r).interface_from i ≤ (getRoad (pair_step i rs p) r).interface_from i := by
  unfold Sim.pair_step
  exact le_trans (interface_le_setmax rs p.1 i _ r) (interface_le_setmax _ p.2 i _ r)

lemma width_pair_step (i : Sim.IntersectionID) (rs : Sim.Roads)
    (p : Sim.RoadID × Sim.RoadID) (r : Sim.RoadID) :
    (getRoad (pair_step i rs p) r).width = (getRoad rs r).width := by
  unfold Sim.pair_step
  rw [width_setmax, width_setmax]

lemma dir_pair_step (i j : Sim.IntersectionID) (rs : Sim.Roads)
    (p : Sim.RoadID × Sim.RoadID) (r : Sim.RoadID) :
    (getRoad (pair_step i rs p) r).dir_from j = (getRoad rs r).dir_from j := by
  unfold Sim.pair_step
  rw [dir_setmax, dir_setmax]

lemma calc_for_pair_step (i : Sim.IntersectionID) (rs : Sim.Roads)
    (q p : Sim.RoadID × Sim.RoadID) :
    calc_for i (pair_step i rs q) p = calc_for i rs p := by
  unfold Sim.calc_for
  rw [width_pair_step, width_pair_step, dir_pair_step, dir_pair_step]

lemma interface_le_foldl_pair (i : Sim.IntersectionID) :
    ∀ (ps : List (Sim.RoadID × Sim.RoadID)) (rs : Sim.Roads) (r : Sim.RoadID),
      (getRoad rs r).interface_from i
        ≤ (getRoad (ps.foldl (pair_step i) rs) r).interface_from i := by
  intro ps
  induction ps with
  | nil => intro rs r; exact le_refl _
  | cons q t ih =>
      intro rs r
      exact le_trans (interface_le_pair_step i rs q r) (ih (pair_step i rs q) r)

lemma pair_step_bound_fst (i : Sim.IntersectionID) (rs : Sim.Roads)
    (p : Sim.RoadID × Sim.RoadID) :
    calc_for i rs p ≤ (getRoad (pair_step i rs p) p.1).interface_from i := by
  unfold Sim.pair_step
  rw [getRoad_setRoad]
  by_cases h : p.1 = p.2
  · rw [if_pos h, interface_from_max_interface]
    exact le_max_right _ _
  · rw [if_neg h, getRoad_setRoad, if_pos rfl, interface_from_max_interface]
    exact le_max_right _ _

lemma pair_step_bound_snd (i : Sim.IntersectionID) (rs : Sim.Roads)
    (p : Sim.RoadID × Sim.RoadID) :
    calc_for i rs p ≤ (getRoad (pair_step i rs p) p.2).interface_from i := by
  unfold Sim.pair_step
  rw [getRoad_setRoad, if_pos rfl, interface_from_max_interface]
  exact le_max_right _ _

lemma pairwise_fold_bound (i : Sim.IntersectionID) :
    ∀ (ps : List (Sim.RoadID × Sim.RoadID)) (rs : Sim.Roads)
      (p : Sim.RoadID × Sim.RoadID), p ∈ ps →
      calc_for i rs p ≤ (getRoad (ps.foldl (pair_step i) rs) p.1).interface_from i
      ∧ calc_for i rs p ≤ (getRoad (ps.foldl (pair_step i) rs) p.2).interface_from i := by
  intro ps
  induction ps with
  | nil => intro rs p hp; cases hp
  | cons q t ih =>
      intro rs p hp
      rcases List.mem_cons.mp hp with heq | hp'
      · subst heq
        constructor
        · exact le_trans (pair_step_bound_fst i rs p)
            (interface_le_foldl_pair i t (pair_step i rs p) p.1)
        · exact le_trans (pair_step_bound_snd i rs p)
            (interface_le_foldl_pair i t (pair_step i rs p) p.2)
      · have h := ih (pair_step i rs q) p hp'
        rw [calc_for_pair_step] at h
        exact h

lemma getRoad_reset_step_ne (i : Sim.IntersectionID) (rs : Sim.Roads)
    (a r : Sim.RoadID) (h : r ≠ a) :
    getRoad (reset_step i rs a) r = getRoad rs r := by
  unfold Sim.reset_step
  rw [getRoad_setRoad, if_neg h]

lemma width_reset_step (i : Sim.IntersectionID) (rs : Sim.Roads) (a r : Sim.RoadID) :
    (getRoad (reset_step i rs a) r).width = (getRoad rs r).width := by
  unfold Sim.reset_step
  rw [getRoad_setRoad]
  by_cases h : r = a
  · subst h
    rw [if_pos rfl, width_set_interface]
  · rw [if_neg h]

lemma dir_reset_step (i j : Sim.IntersectionID) (rs : Sim.Roads) (a r : Sim.RoadID) :
    (getRoad (reset_step i rs a) r).dir_from j = (getRoad rs r).dir_from j := by
  unfold Sim.reset_step
  rw [getRoad_setRoad]
  by_cases h : r = a
  · subst h
    rw [if_pos rfl, dir_from_set_interface]
  · rw [if_neg h]

lemma width_reset_pass (i : Sim.IntersectionID) :
    ∀ (l : List Sim.RoadID) (rs : Sim.Roads) (r : Sim.RoadID),
      (getRoad (reset_pass i l rs) r).width = (getRoad rs r).width := by
  intro l
  induction l with
  | nil => intro rs r; rfl
  | cons a t ih =>
      intro rs r
      rw [show reset_pass i (a :: t) rs = reset_pass i t (reset_step i rs a) from rfl,
        ih (reset_step i rs a) r, width_reset_step]

lemma dir_reset_pass (i j : Sim.IntersectionID) :
    ∀ (l : List Sim.RoadID) (rs : Sim.Roads) (r : Sim.RoadID),
      (getRoad (reset_pass i l rs) r).dir_from j = (getRoad rs r).dir_from j := by
  intro l
  induction l with
  | nil => intro rs r; rfl
  | cons a t ih =>
      intro rs r
      rw [show reset_pass i (a :: t) rs = reset_pass i t (reset_step i rs a) from rfl,
        ih (reset_step i rs a) r, dir_reset_step]

lemma calc_for_reset_pass (i : Sim.IntersectionID) (l : List Sim.RoadID)
    (rs : Sim.Roads) (q : Sim.RoadID × Sim.RoadID) :
    calc_for i (reset_pass i l rs) q = calc_for i rs q := by
  unfold Sim.calc_for
  rw [width_reset_pass, width_reset_pass, dir_reset_pass, dir_reset_pass]

lemma getRoad_reset_pass_not_mem (i : Sim.IntersectionID) :
    ∀ (l : List Sim.RoadID) (rs : Sim.Roads) (r : Sim.RoadID), r ∉ l →
      getRoad (reset_pass i l rs) r = getRoad rs r := by
  intro l
  induction l with
  | nil => intro rs r _; rfl
  | cons a t ih =>
      intro rs r h
      rw [show reset_pass i (a :: t) rs = reset_pass i t (reset_step i rs a) from rfl,
        ih (reset_step i rs a) r (fun hm => h (List.mem_cons_of_mem a hm)),
        getRoad_reset_step_ne i rs a r (fun he => h (he ▸ List.mem_cons_self a t))]

lemma interface_reset_pass (i : Sim.IntersectionID) :
    ∀ (l : List Sim.RoadID) (rs : Sim.Roads) (r : Sim.RoadID), r ∈ l →
      (getRoad (reset_pass i l rs) r).interface_from i
        = empty_interface ((getRoad rs r).width) := by
  intro l
  induction l with
  | nil => intro rs r h; cases h
  | cons a t ih =>
      intro rs r h
      by_cases ht : r ∈ t
      · rw [show reset_pass i (a :: t) rs = reset_pass i t (reset_step i rs a) from rfl,
          ih (reset_step i rs a) r ht, width_reset_step]
      · have hra : r = a := by
          rcases List.mem_cons.mp h with h1 | h1
          · exact h1
          · exact absurd h1 ht
        subst hra
        rw [show reset_pass i (r :: t) rs = reset_pass i t (reset_step i rs r) from rfl,
          getRoad_reset_pass_not_mem i t _ r ht]
        unfold Sim.reset_step
        rw [getRoad_setRoad, if_pos rfl, interface_from_set_interface]

lemma update_radius_no_roundabout (inter : Sim.Intersection) (roads : Sim.Roads)
    (hpresent : ∀ r ∈ inter.roads, (roads r).isSome = true)
    (h2 : 2 ≤ inter.roads.length)
    (hrb : inter.turn_policy.roundabout = none) :
    (inter.update_interface_radius roads).2
      = pairwise_pass inter.id inter.roads (reset_pass inter.id inter.roads roads) := by
  obtain ⟨iid, ipos, irds, ipol⟩ := inter
  have hfilter : irds.filter (fun r => (roads r).isSome) = irds :=
    List.filter_eq_self.mpr hpresent
  have hlen : ¬(irds.length ≤ 1) := by
    simp only at h2
    omega
  unfold Sim.Intersection.update_interface_radius
  simp only [hfilter]
  have hrb2 : Sim.Intersection.is_roundabout ⟨iid, ipos, irds, ipol⟩ = false := by
    unfold Sim.Intersection.is_roundabout
    simp only at hrb
    simp [hrb]
  simp only [hrb2, Bool.false_eq_true, if_false, hlen, if_neg hlen]

end SimTheorems

section SimTheorems2

open Sim

/-- C1: at an intersection with at least two incident roads and no
roundabout configured, after `update_interface_radius` every
angularly-adjacent pair of incident roads (wrapping last to first) has
both interfaces at least
`min(hypot(w1/2, w2/2) * 1.1 / sqrt(1 - clamp(dot, 0, 1)^2), 30)` over
the two departure directions (with the zero-sine parallel case capped at
30 as the `f32` infinity semantics forces), every incident road's
interface is at least the default `max(width * 0.8, 9)`, and the pairwise
loop only ever raises interfaces, for any starting store. -/
theorem update_interface_radius_separation (inter : Sim.Intersection)
    (roads : Sim.Roads)
    (hpresent : ∀ r ∈ inter.roads, (roads r).isSome = true)
    (h2 : 2 ≤ inter.roads.length)
    (hrb : inter.turn_policy.roundabout = none) :
    (∀ p ∈ inter.roads.zip (inter.roads.rotate 1),
        interface_calc (getRoad roads p.1).width (getRoad roads p.2).width
            ((getRoad roads p.1).dir_from inter.id) ((getRoad roads p.2).dir_from inter.id)
          ≤ (getRoad (inter.update_interface_radius roads).2 p.1).interface_from inter.id
        ∧ interface_calc (getRoad roads p.1).width (getRoad roads p.2).width
            ((getRoad roads p.1).dir_from inter.id) ((getRoad roads p.2).dir_from inter.id)
          ≤ (getRoad (inter.update_interface_radius roads).2 p.2).interface_from inter.id)
    ∧ (∀ r ∈ inter.roads,
        empty_interface ((getRoad roads r).width)
          ≤ (getRoad (inter.update_interface_radius roads).2 r).interface_from inter.id)
    ∧ (∀ (rs : Sim.Roads) (r : Sim.RoadID),
        (getRoad rs r).interface_from inter.id
          ≤ (getRoad (pairwise_pass inter.id inter.roads rs) r).interface_from inter.id) := by
  rw [update_radius_no_roundabout inter roads hpresent h2 hrb]
  refine ⟨?_, ?_, ?_⟩
  · intro p hp
    have h := pairwise_fold_bound inter.id (inter.roads.zip (inter.roads.rotate 1))
      (reset_pass inter.id inter.roads roads) p hp
    rw [calc_for_reset_pass] at h
    exact h
  · intro r hr
    have hmono := interface_le_foldl_pair inter.id (inter.roads.zip (inter.roads.rotate 1))
      (reset_pass inter.id inter.roads roads) r
    rw [interface_reset_pass inter.id inter.roads roads r hr] at hmono
    exact hmono
  · intro rs r
    exact interface_le_foldl_pair inter.id _ rs r

/-- C1 witness: the two-road right-angle intersection. -/
theorem update_interface_radius_separation_wit :
    (∀ r ∈ exSimInter.roads, (exSimRoads r).isSome = true)
    ∧ 2 ≤ exSimInter.roads.length
    ∧ exSimInter.turn_policy.roundabout = none
    ∧ ((∀ p ∈ exSimInter.roads.zip (exSimInter.roads.rotate 1),
          interface_calc (getRoad exSimRoads p.1).width (getRoad exSimRoads p.2).width
              ((getRoad exSimRoads p.1).dir_from exSimInter.id)
              ((getRoad exSimRoads p.2).dir_from exSimInter.id)
            ≤ (getRoad (exSimInter.update_interface_radius exSimRoads).2 p.1).interface_from
              exSimInter.id
          ∧ interface_calc (getRoad exSimRoads p.1).width (getRoad exSimRoads p.2).width
              ((getRoad exSimRoads p.1).dir_from exSimInter.id)
              ((getRoad exSimRoads p.2).dir_from exSimInter.id)
            ≤ (getRoad (exSimInter.update_interface_radius exSimRoads).2 p.2).interface_from
              exSimInter.id)
      ∧ (∀ r ∈ exSimInter.roads,
          empty_interface ((getRoad exSimRoads r).width)
            ≤ (getRoad (exSimInter.update_interface_radius exSimRoads).2 r).interface_from
              exSimInter.id)
      ∧ (∀ (rs : Sim.Roads) (r : Sim.RoadID),
          (getRoad rs r).interface_from exSimInter.id
            ≤ (getRoad (pairwise_pass exSimInter.id exSimInter.roads rs) r).interface_from
              exSimInter.id)) :=
  ⟨by decide, by decide, rfl,
    update_interface_radius_separation exSimInter exSimRoads (by decide) (by decide) rfl⟩

lemma update_radius_single (inter : Sim.Intersection) (roads : Sim.Roads)
    (r : Sim.RoadID) (road : Sim.Road)
    (h1 : inter.roads = [r]) (hr : roads r = some road) :
    (inter.update_interface_radius roads).2 = reset_pass inter.id [r] roads := by
  obtain ⟨iid, ipos, irds, ipol⟩ := inter
  have h1' : irds = [r] := h1
  subst h1'
  have hfilter : List.filter (fun x => (roads x).isSome) [r] = [r] := by
    rw [List.filter_eq_self]
    intro a ha
    rw [List.mem_singleton] at ha
    subst ha
    rw [hr]
    rfl
  unfold Sim.Intersection.update_interface_radius
  simp only [hfilter]
  have hrb2 : Sim.Intersection.is_roundabout ⟨iid, ipos, [r], ipol⟩ = false := by
    unfold Sim.Intersection.is_roundabout
    simp
  simp [hrb2]

/-- C7: a dead-end intersection (exactly one incident road) ends up,
after `update_interface_radius`, with that road's interface equal to
exactly the default `max(width * 0.8, 9)`: neither the pairwise loop nor
the roundabout raise applies there, whatever the policy. -/
theorem update_interface_radius_single_road (inter : Sim.Intersection)
    (roads : Sim.Roads) (r : Sim.RoadID) (road : Sim.Road)
    (h1 : inter.roads = [r]) (hr : roads r = some road) :
    (getRoad (inter.update_interface_radius roads).2 r).interface_from inter.id
        = empty_interface road.width
    ∧ empty_interface road.width = max (road.width * 0.8) 9 := by
  constructor
  · rw [update_radius_single inter roads r road h1 hr]
    rw [interface_reset_pass inter.id [r] roads r (List.mem_singleton.mpr rfl)]
    have hget : getRoad roads r = road := by
      unfold Sim.getRoad
      rw [hr]
      rfl
    rw [hget]
  · rfl

/-- C7 witness: the dead end with a configured roundabout, which still
keeps the plain default interface. -/
theorem update_interface_radius_single_road_wit :
    exSimInterSingle.roads = [5]
    ∧ exSimRoadsSingle 5 = some exSimRoad0
    ∧ (getRoad (exSimInterSingle.update_interface_radius exSimRoadsSingle).2 5).interface_from
          exSimInterSingle.id
        = empty_interface exSimRoad0.width
    ∧ empty_interface exSimRoad0.width = max (exSimRoad0.width * 0.8) 9 :=
  ⟨rfl, rfl,
    (update_interface_radius_single_road exSimInterSingle exSimRoadsSingle 5 exSimRoad0
      rfl rfl).1,
    (update_interface_radius_single_road exSimInterSingle exSimRoadsSingle 5 exSimRoad0
      rfl rfl).2⟩

end SimTheorems2

section SimTheorems3

open Sim

lemma check_angle_inter_char (map : Sim.Map) (fromP : Sim.MapProject)
    (toP : Sim.Vec2) (is_rail : Bool) (i : Sim.IntersectionID)
    (inter : Sim.Intersection)
    (hk : fromP.kind = ProjectKind.Inter i)
    (hi : map.intersections i = some inter) :
    (check_angle map fromP toP is_rail = true
      ↔ ∃ rid ∈ inter.roads,
          |Sim.Vec2.angle ((getRoad map.roads rid).dir_from i)
              ((toP - inter.pos.xy).normalize)|
            ≥ (if is_rail then (0:ℝ) else 30 * Real.pi / 180)) := by
  unfold Sim.check_angle
  simp only [hk, hi]
  rw [List.any_eq_true]
  simp only [decide_eq_true_eq]

lemma dir0_exAngle : (getRoad exAngleMap.roads 0).dir_from 7 = Sim.Vec2.mk 1 0 := rfl

lemma dir1_exAngle : (getRoad exAngleMap.roads 1).dir_from 7 = Sim.Vec2.mk 0 1 := rfl

lemma norm_exAngle :
    (exAngleTo - exAngleInter.pos.xy).normalize = Sim.Vec2.mk 0 1 := by
  have hsub : exAngleTo - exAngleInter.pos.xy = Sim.Vec2.mk 0 5 := by
    show Sim.Vec2.mk ((0:ℝ) - 0) ((5:ℝ) - 0) = Sim.Vec2.mk 0 5
    norm_num
  rw [hsub]
  unfold Sim.Vec2.normalize
  have h5 : Real.sqrt ((Sim.Vec2.mk (0:ℝ) 5).x ^ 2 + (Sim.Vec2.mk (0:ℝ) 5).y ^ 2) = 5 := by
    show Real.sqrt ((0:ℝ) ^ 2 + 5 ^ 2) = 5
    rw [show ((0:ℝ) ^ 2 + 5 ^ 2) = 5 ^ 2 by norm_num]
    exact Real.sqrt_sq (by norm_num)
  rw [h5]
  show Sim.Vec2.mk ((0:ℝ) / 5) ((5:ℝ) / 5) = Sim.Vec2.mk 0 1
  norm_num

lemma angle_east_north : Sim.Vec2.angle (Sim.Vec2.mk 1 0) (Sim.Vec2.mk 0 1) = Real.pi / 2 := by
  unfold Sim.Vec2.angle
  have hc : (⟨Sim.Vec2.dot (Sim.Vec2.mk 1 0) (Sim.Vec2.mk 0 1),
      Sim.Vec2.cross (Sim.Vec2.mk 1 0) (Sim.Vec2.mk 0 1)⟩ : ℂ) = Complex.I := by
    apply Complex.ext
    · show (1:ℝ) * 0 + 0 * 1 = Complex.I.re
      simp [Complex.I_re]
    · show (1:ℝ) * 1 - 0 * 0 = Complex.I.im
      simp [Complex.I_im]
  rw [hc, Complex.arg_I]

lemma angle_north_north : Sim.Vec2.angle (Sim.Vec2.mk 0 1) (Sim.Vec2.mk 0 1) = 0 := by
  unfold Sim.Vec2.angle
  have hc : (⟨Sim.Vec2.dot (Sim.Vec2.mk 0 1) (Sim.Vec2.mk 0 1),
      Sim.Vec2.cross (Sim.Vec2.mk 0 1) (Sim.Vec2.mk 0 1)⟩ : ℂ) = 1 := by
    apply Complex.ext
    · show (0:ℝ) * 0 + 1 * 1 = (1:ℂ).re
      simp
    · show (0:ℝ) * 1 - 1 * 0 = (1:ℂ).im
      simp
  rw [hc, Complex.arg_one]

/-- C5 counterexample: at intersection 7 with incident roads heading east
and north, a candidate heading exactly north passes `check_angle` (the
east road alone differs by 90 degrees and the scan is existential),
although it does not differ by at least 30 degrees from every incident
road: it is aligned with the north road. -/
theorem check_angle_any_cx :
    check_angle exAngleMap exAngleFrom exAngleTo false = true
    ∧ ¬(∀ rid ∈ exAngleInter.roads,
        |Sim.Vec2.angle ((getRoad exAngleMap.roads rid).dir_from 7)
            ((exAngleTo - exAngleInter.pos.xy).normalize)| ≥ 30 * Real.pi / 180) := by
  have hpi := Real.pi_pos
  have hchar := check_angle_inter_char exAngleMap exAngleFrom exAngleTo false 7
    exAngleInter rfl rfl
  constructor
  · rw [hchar]
    refine ⟨0, by decide, ?_⟩
    rw [dir0_exAngle, norm_exAngle, angle_east_north, if_neg (by decide : ¬(false = true))]
    rw [abs_of_nonneg (by positivity : (0:ℝ) ≤ Real.pi / 2)]
    linarith
  · intro hall
    have h1 := hall 1 (by decide)
    rw [dir1_exAngle, norm_exAngle, angle_north_north] at h1
    rw [abs_zero] at h1
    have : (0:ℝ) < 30 * Real.pi / 180 := by positivity
    linarith

/-- C5 (amended): full characterisation of the angle check by anchor
kind.  Anchored at an existing intersection, the check passes exactly
when at least one (not every) incident road's departure direction
differs from the candidate's departure direction by at least the minimum
turn angle (30 degrees for ordinary roads; threshold 0 for rail, which
therefore passes whenever any road is incident, rather than requiring
exact alignment).  Anchored mid-road on an existing road, the check
passes exactly when the candidate direction differs by at least the
threshold from both directions of the projected road tangent.  Ground
and building anchors always pass. -/
theorem check_angle_inter_iff (map : Sim.Map) (fromP : Sim.MapProject)
    (toP : Sim.Vec2) (is_rail : Bool) :
    (∀ (i : Sim.IntersectionID) (inter : Sim.Intersection),
        fromP.kind = ProjectKind.Inter i → map.intersections i = some inter →
        (check_angle map fromP toP is_rail = true
          ↔ ∃ rid ∈ inter.roads,
              |Sim.Vec2.angle ((getRoad map.roads rid).dir_from i)
                  ((toP - inter.pos.xy).normalize)|
                ≥ (if is_rail then (0:ℝ) else 30 * Real.pi / 180)))
    ∧ (∀ (rid : Sim.RoadID) (r : Sim.Road),
        fromP.kind = ProjectKind.Road rid → map.roads rid = some r →
        (check_angle map fromP toP is_rail = true
          ↔ |Sim.Vec2.angle ((r.points_proj fromP.pos).2.2.xy)
                ((toP - (r.points_proj fromP.pos).1.xy).normalize)|
              ≥ (if is_rail then (0:ℝ) else 30 * Real.pi / 180)
            ∧ |Sim.Vec2.angle (-(r.points_proj fromP.pos).2.2.xy)
                ((toP - (r.points_proj fromP.pos).1.xy).normalize)|
              ≥ (if is_rail then (0:ℝ) else 30 * Real.pi / 180)))
    ∧ (fromP.kind = ProjectKind.Ground → check_angle map fromP toP is_rail = true)
    ∧ (∀ b : Nat, fromP.kind = ProjectKind.Building b
        → check_angle map fromP toP is_rail = true) := by
  refine ⟨?_, ?_, ?_, ?_⟩
  · intro i inter hk hi
    exact check_angle_inter_char map fromP toP is_rail i inter hk hi
  · intro rid r hk hl
    unfold Sim.check_angle
    simp only [hk, hl]
    rw [Bool.and_eq_true]
    simp only [decide_eq_true_eq]
  · intro hk
    unfold Sim.check_angle
    simp only [hk]
  · intro b hk
    unfold Sim.check_angle
    simp only [hk]

/-- C5 amended-claim witness at the east-north intersection, exercising
the intersection-anchor clause. -/
theorem check_angle_inter_iff_wit :
    exAngleFrom.kind = ProjectKind.Inter 7
    ∧ exAngleMap.intersections 7 = some exAngleInter
    ∧ (check_angle exAngleMap exAngleFrom exAngleTo false = true
        ↔ ∃ rid ∈ exAngleInter.roads,
            |Sim.Vec2.angle ((getRoad exAngleMap.roads rid).dir_from 7)
                ((exAngleTo - exAngleInter.pos.xy).normalize)|
              ≥ (if false then (0:ℝ) else 30 * Real.pi / 180)) :=
  ⟨rfl, rfl,
    (check_angle_inter_iff exAngleMap exAngleFrom exAngleTo false).1 7 exAngleInter
      rfl rfl⟩

end SimTheorems3

section SimTheorems4

open Sim

lemma dist_ground_building : exGroundProj.pos.distance exBuildingProj.pos = 20 := by
  show Real.sqrt (((0:ℝ) - 20) ^ 2 + ((0:ℝ) - 0) ^ 2 + ((0:ℝ) - 0) ^ 2) = 20
  rw [show (((0:ℝ) - 20) ^ 2 + ((0:ℝ) - 0) ^ 2 + ((0:ℝ) - 0) ^ 2) = 20 ^ 2 by norm_num]
  exact Real.sqrt_sq (by norm_num)

/-- C6 counterexample: a ground endpoint and a building endpoint twenty
units apart (at least the 10-unit minimum separation) are rejected by
`compatible`, while the claim accepts a ground endpoint paired with
anything at that distance. -/
theorem compatible_ground_building_cx :
    compatible exEmptyMap exGroundProj exBuildingProj = false
    ∧ ¬(exGroundProj.pos.distance exBuildingProj.pos < 10) := by
  constructor
  · unfold Sim.compatible
    rw [dist_ground_building, if_neg (by norm_num : ¬((20:ℝ) < 10))]
    rfl
  · rw [dist_ground_building]
    norm_num

/-- C6 (amended): `compatible` accepts exactly the pairs at distance at
least 10 whose kinds are: ground with ground, a road or an intersection
(on either side; ground with a building is rejected like every other
building pairing), two distinct roads, two distinct intersections, or a
road with an intersection that is neither its source nor its
destination. -/
theorem compatible_iff (map : Sim.Map) (x y : Sim.MapProject) :
    compatible map x y = true
      ↔ ¬(x.pos.distance y.pos < 10)
        ∧ ((x.kind = ProjectKind.Ground ∧ (y.kind = ProjectKind.Ground
              ∨ (∃ rid, y.kind = ProjectKind.Road rid)
              ∨ (∃ iid, y.kind = ProjectKind.Inter iid)))
          ∨ (y.kind = ProjectKind.Ground ∧ ((∃ rid, x.kind = ProjectKind.Road rid)
              ∨ (∃ iid, x.kind = ProjectKind.Inter iid)))
          ∨ (∃ a b, x.kind = ProjectKind.Road a ∧ y.kind = ProjectKind.Road b ∧ a ≠ b)
          ∨ (∃ a b, x.kind = ProjectKind.Inter a ∧ y.kind = ProjectKind.Inter b ∧ a ≠ b)
          ∨ (∃ iid rid,
              ((x.kind = ProjectKind.Inter iid ∧ y.kind = ProjectKind.Road rid)
                ∨ (x.kind = ProjectKind.Road rid ∧ y.kind = ProjectKind.Inter iid))
              ∧ (getRoad map.roads rid).src ≠ iid ∧ (getRoad map.roads rid).dst ≠ iid)) := by
  unfold Sim.compatible
  by_cases hd : x.pos.distance y.pos < 10
  · rw [if_pos hd]
    simp [hd]
  · rw [if_neg hd]
    obtain ⟨xp, xk⟩ := x
    obtain ⟨yp, yk⟩ := y
    simp only at hd
    cases xk <;> cases yk <;> simp [hd]
    · constructor
      · rintro ⟨h1, h2⟩
        exact ⟨_, _, ⟨rfl, rfl⟩, h1, h2⟩
      · rintro ⟨iid, rid, ⟨rfl, rfl⟩, h1, h2⟩
        exact ⟨h1, h2⟩
    · constructor
      · rintro ⟨h1, h2⟩
        exact ⟨_, _, ⟨rfl, rfl⟩, h1, h2⟩
      · rintro ⟨iid, rid, ⟨rfl, rfl⟩, h1, h2⟩
        exact ⟨h1, h2⟩

end SimTheorems4
